import Mathlib

/-!
Verification of the WattWise real-time ingestion-and-fan-out hub.

Shallow embedding of the Go sources:
  * `src/watwise/web/internal/models/energy.go`                  (data model)
  * `src/unnamed/part_000` (package mqtt, the fixed revision of
    `subscriber.go`: `handleEnergyMessage`, `updateDeviceStatus`,
    `checkDeviceStatus`)                                          (ingestion, liveness)
  * `src/watwise2/web/internal/services/energy_service.go`        (`CheckThresholdAlert`)
  * `src/watwise2/web/internal/handlers/websocket_handler.go`     (fan-out hub)

Modelling conventions:
  * Go `float64` telemetry fields are modelled as `ℚ`.  Every claim only
    compares such fields with constants (`<`, `≤`, `>`), never performs
    rounding float arithmetic, and IEEE-754 comparison of exactly
    representable operands agrees with the rational order.
  * Go `int64` timestamps are modelled as `Int`.  The only arithmetic is
    `timestamp * 1000`, taken exclusively on the branch
    `0 < timestamp < 10^12`, whose result is below `10^15 < 2^63`, so
    wraparound overflow cannot occur and plain `Int` is exact.
  * `time.Now().UnixMilli()` and the outcome of `time.Parse` /
    `SaveEnergyData` are inputs of the embedding (`IngestEnv`).
  * Go maps (`map[string]*models.DeviceStatus`,
    `map[*websocket.Conn]bool`) are modelled as association lists /
    lists; map assignment replaces the entry with the matching key.
  * Logging is not modelled; side effects that the claims mention are
    reified in an explicit `Effect` list.
-/

namespace WattWise

/-- Struct `models.EnergyData` (src/watwise/web/internal/models/energy.go:6-15);
the `Prediction` field is never set on the ingestion path and is omitted. -/
structure EnergyData where
  timestamp   : Int
  voltage     : ℚ
  current     : ℚ
  power       : ℚ
  energy      : ℚ
  frequency   : ℚ
  powerFactor : ℚ
  deriving DecidableEq, Repr

/-- Struct `models.MQTTMessage` (energy.go:31-44), the decoded inbound payload;
`Rssi`/`Uptime` are never read by the ingestion path and are omitted. -/
structure MQTTMessage where
  deviceID     : String
  timestampStr : String
  timestamp    : Int
  voltage      : ℚ
  current      : ℚ
  power        : ℚ
  energy       : ℚ
  frequency    : ℚ
  powerFactor  : ℚ
  deriving DecidableEq, Repr

/-- Struct `models.RealtimeData` (energy.go:47-58), the realtime broadcast payload. -/
structure RealtimeData where
  deviceID    : String
  deviceName  : String
  voltage     : ℚ
  current     : ℚ
  power       : ℚ
  energy      : ℚ
  frequency   : ℚ
  powerFactor : ℚ
  status      : String
  timestamp   : Int
  deriving DecidableEq, Repr

/-- Struct `models.DeviceStatus` (energy.go:61-66), the per-device liveness record. -/
structure DeviceStatus where
  deviceID   : String
  deviceName : String
  status     : String
  lastSeen   : Int
  deriving DecidableEq, Repr

/-- Struct `models.AlertData` (energy.go:80-87).  The human-readable `Message` is
kept as the `fmt.Sprintf` format string; rendering the numeric value into
the text is not modelled (no claim concerns the rendered text). -/
structure AlertData where
  deviceID    : String
  alertType   : String
  message     : String
  threshold   : ℚ
  actualValue : ℚ
  timestamp   : Int
  deriving DecidableEq, Repr

/-! ## Threshold evaluator
`EnergyService.CheckThresholdAlert`
(src/watwise2/web/internal/services/energy_service.go:204-246). -/

/-- Constant `maxPower` of `CheckThresholdAlert` (energy_service.go:207). -/
def maxPower : ℚ := 2200

/-- Constant `maxCurrent` of `CheckThresholdAlert` (energy_service.go:208). -/
def maxCurrent : ℚ := 10

/-- Constant `minVoltage` of `CheckThresholdAlert` (energy_service.go:209). -/
def minVoltage : ℚ := 200

/-- Constant `maxVoltage` of `CheckThresholdAlert` (energy_service.go:210). -/
def maxVoltage : ℚ := 240

/-- Function `EnergyService.CheckThresholdAlert` (energy_service.go:204-246): pure
function from a reading to an optional alert, first matching check wins. -/
def CheckThresholdAlert (deviceID : String) (data : EnergyData) : Option AlertData :=
  if data.power > maxPower then
    some { deviceID := deviceID, alertType := "high_power",
           message := "Power exceeded: %.2fW", threshold := maxPower,
           actualValue := data.power, timestamp := data.timestamp }
  else if data.current > maxCurrent then
    some { deviceID := deviceID, alertType := "high_current",
           message := "Current exceeded: %.2fA", threshold := maxCurrent,
           actualValue := data.current, timestamp := data.timestamp }
  else if data.voltage < minVoltage ∨ data.voltage > maxVoltage then
    some { deviceID := deviceID, alertType := "voltage_abnormal",
           message := "Voltage abnormal: %.2fV", threshold := minVoltage,
           actualValue := data.voltage, timestamp := data.timestamp }
  else
    none

/-! ## Liveness tracker
The `deviceStatus` map of `mqtt.Subscriber` with `updateDeviceStatus` and
the per-tick body of `checkDeviceStatus` (src/unnamed/part_000:254-286). -/

/-- The Go map `map[string]*models.DeviceStatus` as an association list. -/
abbrev DeviceMap : Type := List (String × DeviceStatus)

/-- Go map read `s.deviceStatus[deviceID]`. -/
def lookupDevice : DeviceMap → String → Option DeviceStatus
  | [], _ => none
  | (k, v) :: rest, id => if k = id then some v else lookupDevice rest id

/-- Go map assignment `s.deviceStatus[deviceID] = &models.DeviceStatus{...}`:
replace the entry with the matching key, or append a fresh entry. -/
def setEntry : DeviceMap → String → DeviceStatus → DeviceMap
  | [], k, v => [(k, v)]
  | (k', v') :: rest, k, v =>
      if k' = k then (k, v) :: rest else (k', v') :: setEntry rest k v

/-- Function `Subscriber.updateDeviceStatus` (part_000:254-266): upsert the record
with the given status and `LastSeen = time.Now().UnixMilli()` (passed as
`now`). -/
def updateDeviceStatus (m : DeviceMap) (deviceID status : String) (now : Int) : DeviceMap :=
  setEntry m deviceID
    { deviceID := deviceID, deviceName := deviceID, status := status, lastSeen := now }

/-- One tick of `Subscriber.checkDeviceStatus` (part_000:273-284): every
device with `now - LastSeen > 60000` and status `"online"` is flipped to
`"offline"`; everything else is untouched. -/
def checkDeviceStatusTick (m : DeviceMap) (now : Int) : DeviceMap :=
  m.map fun p =>
    (p.1,
     if now - p.2.lastSeen > 60000 ∧ p.2.status = "online" then
       { p.2 with status := "offline" }
     else
       p.2)

/-- Key list of the device map. -/
def mapKeys (m : DeviceMap) : List String := m.map Prod.fst

/-! ## Ingestion pipeline
`Subscriber.handleEnergyMessage` (src/unnamed/part_000:73-234), the fixed
revision of `subscriber.go`. -/

/-- Environment of one `handleEnergyMessage` invocation: the wall clock and
the outcomes of the two external calls the handler makes.
  * `parseTimeStr s` models `time.Parse("2006-01-02 15:04:05", s)` followed
    by `UnixMilli()`: `some t` on parse success, `none` on parse error.
  * `now` models `time.Now().UnixMilli()`.
  * `saveErr` models whether `energyService.SaveEnergyData` returns a
    non-nil error (the storage sink failing). -/
structure IngestEnv where
  parseTimeStr : String → Option Int
  now          : Int
  saveErr      : Bool

/-- Mutable state of `mqtt.Subscriber` touched by the ingestion path:
the device-status map and whether `SetWebSocketBroadcaster` has been
called (`wsBroadcaster != nil`). -/
structure SubscriberState where
  deviceStatus     : DeviceMap
  wsBroadcasterSet : Bool

/-- Externally visible side effects of the ingestion path, in program
order: the storage-sink append attempt (with its outcome), the liveness
touch, and the two hub broadcasts. -/
inductive Effect where
  | saveEnergy (deviceID : String) (data : EnergyData) (ok : Bool)
  | touch (deviceID : String) (status : String)
  | alertEvent (alert : AlertData)
  | realtimeEvent (data : RealtimeData)
  deriving DecidableEq, Repr

/-- Device-ID defaulting (part_000:90-93): an empty `device_id` becomes
`"ESP32_PZEM"`. -/
def defaultDeviceID (id : String) : String :=
  if id = "" then "ESP32_PZEM" else id

/-- Timestamp conversion block of `handleEnergyMessage` (part_000:121-153):
textual timestamp first (fallback to now on parse failure), then positive
numeric timestamp (seconds→ms below `10^12`), else now. -/
def resolveTimestampMs (env : IngestEnv) (msg : MQTTMessage) : Int :=
  if msg.timestampStr ≠ "" then
    match env.parseTimeStr msg.timestampStr with
    | some t => t
    | none => env.now
  else if msg.timestamp > 0 then
    if msg.timestamp < 1000000000000 then msg.timestamp * 1000
    else msg.timestamp
  else env.now

/-- Function `Subscriber.handleEnergyMessage` (part_000:73-234).  `payload` is the
result of `json.Unmarshal` (`none` on decode failure).  Returns the list
of side effects in program order and the updated subscriber state. -/
def handleEnergyMessage (env : IngestEnv) (s : SubscriberState)
    (payload : Option MQTTMessage) : List Effect × SubscriberState :=
  match payload with
  | none => ([], s)
  | some m =>
    let msg := { m with deviceID := defaultDeviceID m.deviceID }
    if msg.voltage ≤ 0 then ([], s)
    else if msg.current < 0 then ([], s)
    else if msg.power < 0 then ([], s)
    else
      let timestampMs := resolveTimestampMs env msg
      let energyData : EnergyData :=
        { timestamp := timestampMs, voltage := msg.voltage, current := msg.current,
          power := msg.power, energy := msg.energy, frequency := msg.frequency,
          powerFactor := msg.powerFactor }
      let s1 : SubscriberState :=
        { s with deviceStatus :=
            updateDeviceStatus s.deviceStatus msg.deviceID "online" env.now }
      let alertEffs : List Effect :=
        match CheckThresholdAlert msg.deviceID energyData with
        | some alert => if s.wsBroadcasterSet then [Effect.alertEvent alert] else []
        | none => []
      let realtimeData : RealtimeData :=
        { deviceID := msg.deviceID, deviceName := msg.deviceID,
          voltage := msg.voltage, current := msg.current, power := msg.power,
          energy := msg.energy, frequency := msg.frequency,
          powerFactor := msg.powerFactor, status := "online",
          timestamp := timestampMs }
      let realtimeEffs : List Effect :=
        if s.wsBroadcasterSet then [Effect.realtimeEvent realtimeData] else []
      (Effect.saveEnergy msg.deviceID energyData (!env.saveErr)
         :: Effect.touch msg.deviceID "online"
         :: (alertEffs ++ realtimeEffs), s1)

/-- Timestamps carried by the storage-sink append attempts in an effect
list. -/
def savedTimestamps (effs : List Effect) : List Int :=
  effs.filterMap fun e =>
    match e with
    | Effect.saveEnergy _ data _ => some data.timestamp
    | _ => none

/-- Timestamps carried by the realtime broadcasts in an effect list. -/
def realtimeTimestamps (effs : List Effect) : List Int :=
  effs.filterMap fun e =>
    match e with
    | Effect.realtimeEvent data => some data.timestamp
    | _ => none

/-- Effects other than the storage-sink append attempt. -/
def nonSaveEffects (effs : List Effect) : List Effect :=
  effs.filter fun e =>
    match e with
    | Effect.saveEnergy _ _ _ => false
    | _ => true

/-- Number of liveness touches in an effect list. -/
def touchCount (effs : List Effect) : Nat :=
  (effs.filter fun e =>
    match e with
    | Effect.touch _ _ => true
    | _ => false).length

/-- Number of realtime broadcasts in an effect list. -/
def realtimeCount (effs : List Effect) : Nat :=
  (effs.filter fun e =>
    match e with
    | Effect.realtimeEvent _ => true
    | _ => false).length

/-- Modelled from the spec: the stated timestamp precedence (§4.4 step 3), for comparison with the
code: (a) textual timestamp parsed to epoch-ms, falling back to now on
parse failure; (b) else positive numeric timestamp, values below `10^12`
multiplied by 1000, larger values used unchanged; (c) else now. -/
def specResolvedTimestamp (parse : String → Option Int) (now : Int)
    (tsStr : String) (ts : Int) : Int :=
  if tsStr ≠ "" then (parse tsStr).getD now
  else if ts > 0 then (if ts < 1000000000000 then ts * 1000 else ts)
  else now

/-! ## Fan-out hub
`handlers.WebSocketHandler`
(src/watwise2/web/internal/handlers/websocket_handler.go). -/

/-- A viewer session: the connection handle (identified by `sid`) plus
whether writes to it succeed (`conn.WriteJSON` returning nil). -/
structure Session where
  sid     : Nat
  writeOk : Bool
  deriving DecidableEq, Repr

/-- An element of the `broadcast` channel (`chan interface{}`): either a
realtime payload or an alert payload. -/
inductive Event where
  | realtime (data : RealtimeData)
  | alertEv (alert : AlertData)
  deriving DecidableEq, Repr

/-- Capacity of the `broadcast` channel
(`make(chan interface{}, 100)`, websocket_handler.go:26). -/
def broadcastChanCap : Nat := 100

/-- Hub state: the `clients` set and the pending contents of the buffered
`broadcast` channel. -/
structure HubState where
  clients : List Session
  queue   : List Event
  deriving DecidableEq, Repr

/-- Function `WebSocketHandler.BroadcastRealtimeData` (websocket_handler.go:91-107):
return immediately when no client is connected; otherwise a non-blocking
channel send (`select` with `default`): enqueue when the buffer has room,
drop otherwise. -/
def BroadcastRealtimeData (h : HubState) (data : RealtimeData) : HubState :=
  if h.clients.length = 0 then h
  else if h.queue.length < broadcastChanCap then
    { h with queue := h.queue ++ [Event.realtime data] }
  else h

/-- Function `WebSocketHandler.BroadcastAlert` (websocket_handler.go:110-125): same
shape as `BroadcastRealtimeData`. -/
def BroadcastAlert (h : HubState) (alert : AlertData) : HubState :=
  if h.clients.length = 0 then h
  else if h.queue.length < broadcastChanCap then
    { h with queue := h.queue ++ [Event.alertEv alert] }
  else h

/-- The `message := <-h.broadcast` arm of `runHub`
(websocket_handler.go:59-71): write the event to every client in turn; a
successful write is a delivery, a failed write spawns an unregister
request for that client.  Returns (deliveries, unregister requests). -/
def broadcastPass : List Session → Event → List (Session × Event) × List Session
  | [], _ => ([], [])
  | c :: rest, ev =>
    let r := broadcastPass rest ev
    if c.writeOk then ((c, ev) :: r.1, r.2) else (r.1, c :: r.2)

/-- Go `delete(h.clients, conn)`: remove the entry for the given
connection from the set. -/
def removeSession : List Session → Session → List Session
  | [], _ => []
  | c :: rest, x => if c = x then rest else c :: removeSession rest x

/-- The `conn := <-h.unregister` arm of `runHub`
(websocket_handler.go:50-57): if the connection is still registered,
remove it and close its transport.  The boolean reports whether
`conn.Close()` was called. -/
def unregisterSession (clients : List Session) (c : Session) : List Session × Bool :=
  if c ∈ clients then (removeSession clients c, true) else (clients, false)

/-- Processing of the unregister requests spawned by a broadcast pass, in
order. -/
def processEvictions (clients : List Session) : List Session → List Session
  | [] => clients
  | c :: cs => processEvictions (unregisterSession clients c).1 cs

/-! ## Runtime operations on the liveness map
The only two code paths reachable at runtime that mutate `deviceStatus`:
the ingestion touch (`handleEnergyMessage` calls
`updateDeviceStatus(deviceID, "online")`, part_000:185) and the periodic
sweep tick (part_000:273-284).  `handleStatusMessage` (part_000:237-251)
also calls `updateDeviceStatus`, but it is dead code: no call site ever
subscribes it as a message callback anywhere in the repository (the only
`client.Subscribe` call registers `handleEnergyMessage`,
part_000:57). -/

/-- A runtime mutation of the liveness map. -/
inductive TrackerOp where
  | ingestTouch (deviceID : String) (now : Int)
  | sweep (now : Int)
  deriving DecidableEq, Repr

/-- Effect of one runtime mutation on the liveness map. -/
def applyTrackerOp (m : DeviceMap) : TrackerOp → DeviceMap
  | TrackerOp.ingestTouch id now => updateDeviceStatus m id "online" now
  | TrackerOp.sweep now => checkDeviceStatusTick m now

/-! ## Helper lemmas on the liveness map -/

/-- A sweep tick acts pointwise on the record found under each key. -/
theorem lookupDevice_checkTick (m : DeviceMap) (now : Int) (id : String) :
    lookupDevice (checkDeviceStatusTick m now) id
      = (lookupDevice m id).map (fun st =>
          if now - st.lastSeen > 60000 ∧ st.status = "online"
          then { st with status := "offline" } else st) := by
  induction m with
  | nil => rfl
  | cons p rest ih =>
    obtain ⟨k, v⟩ := p
    by_cases hk : k = id
    · subst hk
      simp [checkDeviceStatusTick, lookupDevice]
    · simpa [checkDeviceStatusTick, lookupDevice, hk] using ih

/-- Reading back the key just written by a map assignment. -/
theorem lookupDevice_setEntry_self (m : DeviceMap) (k : String) (v : DeviceStatus) :
    lookupDevice (setEntry m k v) k = some v := by
  induction m with
  | nil => simp [setEntry, lookupDevice]
  | cons p rest ih =>
    obtain ⟨k', v'⟩ := p
    by_cases h : k' = k
    · subst h; simp [setEntry, lookupDevice]
    · simp [setEntry, lookupDevice, h, ih]

/-- A map assignment leaves every other key unchanged. -/
theorem lookupDevice_setEntry_ne (m : DeviceMap) (k id : String) (v : DeviceStatus)
    (h : k ≠ id) :
    lookupDevice (setEntry m k v) id = lookupDevice m id := by
  induction m with
  | nil => simp [setEntry, lookupDevice, h]
  | cons p rest ih =>
    obtain ⟨k', v'⟩ := p
    by_cases hk : k' = k
    · subst hk; simp [setEntry, lookupDevice, h]
    · by_cases hid : k' = id
      · subst hid
        simp [setEntry, lookupDevice, hk]
      · simp [setEntry, lookupDevice, hk, hid, ih]

/-- Key list after a map assignment: unchanged when the key was present,
extended by the key otherwise. -/
theorem mapKeys_setEntry (m : DeviceMap) (k : String) (v : DeviceStatus) :
    mapKeys (setEntry m k v)
      = if k ∈ mapKeys m then mapKeys m else mapKeys m ++ [k] := by
  induction m with
  | nil => simp [setEntry, mapKeys]
  | cons p rest ih =>
    obtain ⟨k', v'⟩ := p
    by_cases h : k' = k
    · subst h; simp [setEntry, mapKeys]
    · have hks : ¬k = k' := fun hEq => h hEq.symm
      have hL : setEntry ((k', v') :: rest) k v = (k', v') :: setEntry rest k v := by
        simp [setEntry, h]
      have hcons : mapKeys ((k', v') :: setEntry rest k v)
          = k' :: mapKeys (setEntry rest k v) := by
        simp [mapKeys]
      have hmem : (k ∈ mapKeys ((k', v') :: rest)) ↔ k ∈ mapKeys rest := by
        simp [mapKeys, hks]
      by_cases hm : k ∈ mapKeys rest
      · rw [hL, if_pos (hmem.mpr hm), hcons, ih, if_pos hm]
        simp [mapKeys]
      · rw [hL, if_neg (fun hx => hm (hmem.mp hx)), hcons, ih, if_neg hm]
        simp [mapKeys]

/-- The key written by a map assignment is present afterwards. -/
theorem mem_mapKeys_setEntry (m : DeviceMap) (k : String) (v : DeviceStatus) :
    k ∈ mapKeys (setEntry m k v) := by
  rw [mapKeys_setEntry]
  by_cases h : k ∈ mapKeys m
  · rwa [if_pos h]
  · rw [if_neg h]; simp

/-- A sweep tick never changes the key list. -/
theorem mapKeys_checkTick (m : DeviceMap) (now : Int) :
    mapKeys (checkDeviceStatusTick m now) = mapKeys m := by
  induction m with
  | nil => rfl
  | cons p rest ih =>
    obtain ⟨k, v⟩ := p
    simp only [checkDeviceStatusTick, mapKeys, List.map_cons] at ih ⊢
    rw [ih]

/-- A map assignment preserves distinctness of the keys. -/
theorem mapKeys_nodup_setEntry (m : DeviceMap) (k : String) (v : DeviceStatus)
    (h : (mapKeys m).Nodup) : (mapKeys (setEntry m k v)).Nodup := by
  rw [mapKeys_setEntry]
  by_cases hm : k ∈ mapKeys m
  · rwa [if_pos hm]
  · rw [if_neg hm]
    refine h.append (List.nodup_singleton k) ?_
    intro a ha hb
    rw [List.mem_singleton] at hb
    subst hb
    exact hm ha

/-! ## Claim theorems -/

/-- Claim C1: a decoded telemetry message with voltage ≤ 0, or current < 0,
or power < 0 causes no side effect at all in `handleEnergyMessage`: no
storage-sink append attempt, no device-status mutation, no broadcast; the
message is dropped terminally. -/
theorem ingest_invalid_reading_no_side_effects
    (env : IngestEnv) (s : SubscriberState) (msg : MQTTMessage)
    (hbad : msg.voltage ≤ 0 ∨ msg.current < 0 ∨ msg.power < 0) :
    handleEnergyMessage env s (some msg) = ([], s) := by
  rcases hbad with h | h | h
  · simp [handleEnergyMessage, h]
  · by_cases h1 : msg.voltage ≤ 0
    · simp [handleEnergyMessage, h1]
    · simp [handleEnergyMessage, h1, h]
  · by_cases h1 : msg.voltage ≤ 0
    · simp [handleEnergyMessage, h1]
    · by_cases h2 : msg.current < 0
      · simp [handleEnergyMessage, h1, h2]
      · simp [handleEnergyMessage, h1, h2, h]

/-- Witness for C1 at a concrete message with voltage 0. -/
theorem ingest_invalid_reading_no_side_effects_witness :
    handleEnergyMessage ⟨fun _ => none, 5, false⟩ ⟨[], true⟩
        (some ⟨"dev1", "", 1700000000, 0, 1, 100, 2, 50, 1⟩)
      = ([], ⟨[], true⟩) :=
  ingest_invalid_reading_no_side_effects _ _ _ (Or.inl (by norm_num))

/-- Claim C3: `CheckThresholdAlert` is a pure function returning at most
one alert, checked in fixed priority order with first match winning:
power > 2200 → `high_power`; else current > 10 → `high_current`; else
voltage outside [200, 240] → `voltage_abnormal`; else no alert.  In
particular power = 2500 together with current = 12 yields `high_power`. -/
theorem threshold_evaluator_priority (id : String) (data : EnergyData) :
    (data.power > 2200 →
      (CheckThresholdAlert id data).map (fun a => a.alertType) = some "high_power")
    ∧ (data.power ≤ 2200 → data.current > 10 →
      (CheckThresholdAlert id data).map (fun a => a.alertType) = some "high_current")
    ∧ (data.power ≤ 2200 → data.current ≤ 10 →
        (data.voltage < 200 ∨ data.voltage > 240) →
      (CheckThresholdAlert id data).map (fun a => a.alertType) = some "voltage_abnormal")
    ∧ (data.power ≤ 2200 → data.current ≤ 10 → 200 ≤ data.voltage →
        data.voltage ≤ 240 →
      CheckThresholdAlert id data = none) := by
  refine ⟨fun h => ?_, fun h1 h2 => ?_, fun h1 h2 h3 => ?_, fun h1 h2 h3 h4 => ?_⟩
  · simp [CheckThresholdAlert, maxPower, h]
  · simp [CheckThresholdAlert, maxPower, maxCurrent, not_lt.mpr h1, h2]
  · simp [CheckThresholdAlert, maxPower, maxCurrent, minVoltage, maxVoltage,
      not_lt.mpr h1, not_lt.mpr h2, h3]
  · simp [CheckThresholdAlert, maxPower, maxCurrent, minVoltage, maxVoltage,
      not_lt.mpr h1, not_lt.mpr h2, not_lt.mpr h3, not_lt.mpr h4]

/-- Witness for C3: power = 2500 W and current = 12 A yields `high_power`,
not `high_current`. -/
theorem threshold_evaluator_priority_witness :
    (CheckThresholdAlert "ESP32_PZEM"
        ⟨1700000000000, 230, 12, 2500, 1, 50, 1⟩).map (fun a => a.alertType)
      = some "high_power" :=
  (threshold_evaluator_priority "ESP32_PZEM" _).1 (by norm_num)

/-- Claim C10: when the registered-session set is empty,
`BroadcastRealtimeData` and `BroadcastAlert` return with the hub state
unchanged — the event is discarded before reaching the queue even though
the queue has free capacity. -/
theorem broadcast_no_clients_discards
    (h : HubState) (d : RealtimeData) (a : AlertData)
    (hcl : h.clients = []) :
    BroadcastRealtimeData h d = h ∧ BroadcastAlert h a = h := by
  constructor <;> simp [BroadcastRealtimeData, BroadcastAlert, hcl]

/-- Witness for C10 at an empty hub. -/
theorem broadcast_no_clients_discards_witness :
    BroadcastRealtimeData ⟨[], []⟩
        ⟨"dev1", "dev1", 230, 1, 230, 2, 50, 1, "online", 0⟩ = ⟨[], []⟩
    ∧ BroadcastAlert ⟨[], []⟩
        ⟨"dev1", "high_power", "Power exceeded: %.2fW", 2200, 2500, 0⟩ = ⟨[], []⟩ :=
  broadcast_no_clients_discards _ _ _ rfl

/-- Counterexample to claim C6 as stated: with zero registered sessions and
an empty queue (well below the capacity of 100), a broadcast request does
not enqueue the event — the hub state is returned unchanged — refuting
"when the queue is below capacity the event is enqueued". -/
theorem hub_enqueue_below_capacity_counterexample :
    (⟨[], []⟩ : HubState).queue.length < broadcastChanCap
    ∧ BroadcastRealtimeData ⟨[], []⟩
        ⟨"dev1", "dev1", 230, 1, 230, 2, 50, 1, "online", 0⟩ = ⟨[], []⟩ := by
  constructor
  · decide
  · rfl

/-- Claim C6 (amended): the broadcast queue has fixed capacity 100; while
at least one session is registered, a broadcast request finding the queue
at capacity drops the event and leaves the hub unchanged (the non-blocking
`select`/`default` send), and a request finding the queue below capacity
appends the event to the queue; the session set is never altered by the
enqueue operation. -/
theorem hub_backpressure_bounded_queue
    (h : HubState) (d : RealtimeData) (a : AlertData)
    (hcl : h.clients ≠ []) :
    (broadcastChanCap ≤ h.queue.length →
       BroadcastRealtimeData h d = h ∧ BroadcastAlert h a = h)
    ∧ (h.queue.length < broadcastChanCap →
       (BroadcastRealtimeData h d).queue = h.queue ++ [Event.realtime d]
       ∧ (BroadcastRealtimeData h d).clients = h.clients
       ∧ (BroadcastAlert h a).queue = h.queue ++ [Event.alertEv a]
       ∧ (BroadcastAlert h a).clients = h.clients) := by
  have hne : h.clients.length ≠ 0 := by
    simpa [List.length_eq_zero] using hcl
  constructor
  · intro hfull
    constructor <;>
      simp [BroadcastRealtimeData, BroadcastAlert, hne, not_lt.mpr hfull]
  · intro hlt
    refine ⟨?_, ?_, ?_, ?_⟩ <;>
      simp [BroadcastRealtimeData, BroadcastAlert, hne, hlt]

/-- Witness for the amended C6: one registered session, empty queue — the
realtime event is appended. -/
theorem hub_backpressure_bounded_queue_witness :
    (BroadcastRealtimeData ⟨[⟨0, true⟩], []⟩
        ⟨"dev1", "dev1", 230, 1, 230, 2, 50, 1, "online", 0⟩).queue
      = [] ++ [Event.realtime ⟨"dev1", "dev1", 230, 1, 230, 2, 50, 1, "online", 0⟩]
    ∧ (BroadcastRealtimeData ⟨[⟨0, true⟩], []⟩
        ⟨"dev1", "dev1", 230, 1, 230, 2, 50, 1, "online", 0⟩).clients = [⟨0, true⟩]
    ∧ (BroadcastAlert ⟨[⟨0, true⟩], []⟩
        ⟨"dev1", "high_power", "Power exceeded: %.2fW", 2200, 2500, 0⟩).queue
      = [] ++ [Event.alertEv ⟨"dev1", "high_power", "Power exceeded: %.2fW", 2200, 2500, 0⟩]
    ∧ (BroadcastAlert ⟨[⟨0, true⟩], []⟩
        ⟨"dev1", "high_power", "Power exceeded: %.2fW", 2200, 2500, 0⟩).clients
      = [⟨0, true⟩] :=
  (hub_backpressure_bounded_queue ⟨[⟨0, true⟩], []⟩ _ _ (by decide)).2 (by decide)

/-- Claim C8: a broadcast pass over a session set holding a healthy
session A and a session B whose write fails delivers the event to A in
that same pass, spawns an unregister request for B (whose processing
removes B and closes its transport), and a subsequent broadcast over the
resulting set is delivered only to A. -/
theorem fanout_failed_write_isolation (A B : Session) (ev evNext : Event)
    (hA : A.writeOk = true) (hB : B.writeOk = false) :
    broadcastPass [A, B] ev = ([(A, ev)], [B])
    ∧ (unregisterSession [A, B] B).2 = true
    ∧ processEvictions [A, B] (broadcastPass [A, B] ev).2 = [A]
    ∧ broadcastPass (processEvictions [A, B] (broadcastPass [A, B] ev).2) evNext
        = ([(A, evNext)], []) := by
  have hAB : A ≠ B := by
    intro hEq
    rw [hEq, hB] at hA
    cases hA
  have hpass : broadcastPass [A, B] ev = ([(A, ev)], [B]) := by
    simp [broadcastPass, hA, hB]
  have hrem : processEvictions [A, B] [B] = [A] := by
    simp [processEvictions, unregisterSession, removeSession, hAB]
  refine ⟨hpass, ?_, ?_, ?_⟩
  · simp [unregisterSession]
  · rw [hpass]
    exact hrem
  · rw [hpass]
    rw [hrem]
    simp [broadcastPass, hA]

/-- Witness for C8 with concrete sessions and events. -/
theorem fanout_failed_write_isolation_witness :
    broadcastPass [⟨0, true⟩, ⟨1, false⟩]
        (Event.alertEv ⟨"dev1", "high_power", "Power exceeded: %.2fW", 2200, 2500, 0⟩)
      = ([(⟨0, true⟩,
           Event.alertEv ⟨"dev1", "high_power", "Power exceeded: %.2fW", 2200, 2500, 0⟩)],
         [⟨1, false⟩])
    ∧ (unregisterSession [⟨0, true⟩, ⟨1, false⟩] ⟨1, false⟩).2 = true
    ∧ processEvictions [⟨0, true⟩, ⟨1, false⟩]
        (broadcastPass [⟨0, true⟩, ⟨1, false⟩]
          (Event.alertEv ⟨"dev1", "high_power", "Power exceeded: %.2fW", 2200, 2500, 0⟩)).2
      = [⟨0, true⟩]
    ∧ broadcastPass
        (processEvictions [⟨0, true⟩, ⟨1, false⟩]
          (broadcastPass [⟨0, true⟩, ⟨1, false⟩]
            (Event.alertEv ⟨"dev1", "high_power", "Power exceeded: %.2fW", 2200, 2500, 0⟩)).2)
        (Event.realtime ⟨"dev1", "dev1", 230, 1, 230, 2, 50, 1, "online", 0⟩)
      = ([(⟨0, true⟩,
           Event.realtime ⟨"dev1", "dev1", 230, 1, 230, 2, 50, 1, "online", 0⟩)], []) :=
  fanout_failed_write_isolation ⟨0, true⟩ ⟨1, false⟩ _ _ rfl rfl

/-- Claim C4: a sweep pass transitions a tracked device to offline exactly
when `now - last_seen > 60000` and its status is `"online"`; a device
touched less than the staleness window before the sweep stays online, and
a device last touched more than the staleness window before the sweep,
with no further touch, is transitioned to offline. -/
theorem liveness_sweep_staleness (m : DeviceMap) (id : String) (st : DeviceStatus)
    (now t1 t2 : Int) (hst : lookupDevice m id = some st) :
    (lookupDevice (checkDeviceStatusTick m now) id
       = some (if now - st.lastSeen > 60000 ∧ st.status = "online"
               then { st with status := "offline" } else st))
    ∧ (t2 - t1 ≤ 60000 →
        lookupDevice (checkDeviceStatusTick (updateDeviceStatus m id "online" t1) t2) id
          = some ⟨id, id, "online", t1⟩)
    ∧ (t2 - t1 > 60000 →
        lookupDevice (checkDeviceStatusTick (updateDeviceStatus m id "online" t1) t2) id
          = some ⟨id, id, "offline", t1⟩) := by
  refine ⟨?_, ?_, ?_⟩
  · rw [lookupDevice_checkTick, hst]
    rfl
  · intro hle
    rw [lookupDevice_checkTick, updateDeviceStatus, lookupDevice_setEntry_self]
    simp [not_lt.mpr hle]
  · intro hgt
    rw [lookupDevice_checkTick, updateDeviceStatus, lookupDevice_setEntry_self]
    simp [hgt]

/-- Witness for C4: a device touched at time 0 stays online under a sweep
at time 100 and is flipped to offline under a sweep at time 70000. -/
theorem liveness_sweep_staleness_witness :
    lookupDevice (checkDeviceStatusTick
        (updateDeviceStatus [("dev1", ⟨"dev1", "dev1", "online", 0⟩)] "dev1" "online" 0)
        100) "dev1"
      = some ⟨"dev1", "dev1", "online", 0⟩
    ∧ lookupDevice (checkDeviceStatusTick
        (updateDeviceStatus [("dev1", ⟨"dev1", "dev1", "online", 0⟩)] "dev1" "online" 0)
        70000) "dev1"
      = some ⟨"dev1", "dev1", "offline", 0⟩ :=
  ⟨(liveness_sweep_staleness [("dev1", ⟨"dev1", "dev1", "online", 0⟩)] "dev1"
      ⟨"dev1", "dev1", "online", 0⟩ 0 0 100 (by decide)).2.1 (by norm_num),
   (liveness_sweep_staleness [("dev1", ⟨"dev1", "dev1", "online", 0⟩)] "dev1"
      ⟨"dev1", "dev1", "online", 0⟩ 0 0 70000 (by decide)).2.2 (by norm_num)⟩

/-- Claim C5: among the liveness-map mutations reachable at runtime (the
ingestion touch and the sweep tick; `handleStatusMessage` is dead code,
see `TrackerOp`), only a sweep ever moves the status of a device to
`"offline"`, and only an ingestion touch of that device ever moves an
offline device away from `"offline"`. -/
theorem liveness_offline_transition_authority (m : DeviceMap) (op : TrackerOp)
    (id : String) (st st' : DeviceStatus)
    (h1 : lookupDevice m id = some st)
    (h2 : lookupDevice (applyTrackerOp m op) id = some st') :
    (st.status ≠ "offline" → st'.status = "offline" → ∃ n, op = TrackerOp.sweep n)
    ∧ (st.status = "offline" → st'.status ≠ "offline" →
        ∃ n, op = TrackerOp.ingestTouch id n) := by
  cases op with
  | ingestTouch j n =>
    by_cases hj : j = id
    · subst hj
      have hs : st' = ⟨j, j, "online", n⟩ := by
        rw [applyTrackerOp, updateDeviceStatus, lookupDevice_setEntry_self] at h2
        exact (Option.some.inj h2).symm
      constructor
      · intro _ hoff
        rw [hs] at hoff
        simp at hoff
      · intro _ _
        exact ⟨n, rfl⟩
    · have hs : st' = st := by
        rw [applyTrackerOp, updateDeviceStatus,
          lookupDevice_setEntry_ne m j id _ hj, h1] at h2
        exact (Option.some.inj h2).symm
      subst hs
      constructor
      · intro hne hoff
        exact absurd hoff hne
      · intro hoff hne
        exact absurd hoff hne
  | sweep n =>
    rw [applyTrackerOp, lookupDevice_checkTick, h1] at h2
    have hs : st' = if n - st.lastSeen > 60000 ∧ st.status = "online"
        then { st with status := "offline" } else st :=
      (Option.some.inj h2).symm
    constructor
    · intro _ _
      exact ⟨n, rfl⟩
    · intro hoff hne
      exfalso
      apply hne
      have hcond : ¬(n - st.lastSeen > 60000 ∧ st.status = "online") := by
        rintro ⟨-, hon⟩
        rw [hoff] at hon
        exact absurd hon (by decide)
      rw [hs, if_neg hcond]
      exact hoff

/-- Witness for C5: a stale online device flipped by a sweep at time
70000 — the flipping operation is indeed a sweep. -/
theorem liveness_offline_transition_authority_witness :
    ∃ n, TrackerOp.sweep (70000 : Int) = TrackerOp.sweep n :=
  (liveness_offline_transition_authority
      [("dev1", ⟨"dev1", "dev1", "online", 0⟩)] (TrackerOp.sweep 70000) "dev1"
      ⟨"dev1", "dev1", "online", 0⟩ ⟨"dev1", "dev1", "offline", 0⟩
      (by decide) (by decide)).1 (by decide) (by decide)

/-- Shape of `handleEnergyMessage` on a message passing validation: the
storage append attempt, the liveness touch, the conditional alert
broadcast and the conditional realtime broadcast, plus the map update. -/
theorem handleEnergyMessage_valid (env : IngestEnv) (s : SubscriberState)
    (msg : MQTTMessage)
    (hv : 0 < msg.voltage) (hc : 0 ≤ msg.current) (hp : 0 ≤ msg.power) :
    handleEnergyMessage env s (some msg)
      = (Effect.saveEnergy (defaultDeviceID msg.deviceID)
            ⟨resolveTimestampMs env msg, msg.voltage, msg.current, msg.power,
             msg.energy, msg.frequency, msg.powerFactor⟩
            (!env.saveErr)
          :: Effect.touch (defaultDeviceID msg.deviceID) "online"
          :: ((match CheckThresholdAlert (defaultDeviceID msg.deviceID)
                  ⟨resolveTimestampMs env msg, msg.voltage, msg.current, msg.power,
                   msg.energy, msg.frequency, msg.powerFactor⟩ with
               | some alert => if s.wsBroadcasterSet then [Effect.alertEvent alert] else []
               | none => [])
              ++ (if s.wsBroadcasterSet then
                    [Effect.realtimeEvent
                      ⟨defaultDeviceID msg.deviceID, defaultDeviceID msg.deviceID,
                       msg.voltage, msg.current, msg.power, msg.energy, msg.frequency,
                       msg.powerFactor, "online", resolveTimestampMs env msg⟩]
                  else [])),
         ⟨updateDeviceStatus s.deviceStatus (defaultDeviceID msg.deviceID)
            "online" env.now, s.wsBroadcasterSet⟩) := by
  have hres : resolveTimestampMs env
        ⟨defaultDeviceID msg.deviceID, msg.timestampStr, msg.timestamp, msg.voltage,
         msg.current, msg.power, msg.energy, msg.frequency, msg.powerFactor⟩
      = resolveTimestampMs env msg := rfl
  simp [handleEnergyMessage, not_le.mpr hv, not_lt.mpr hc, not_lt.mpr hp, hres]

/-- The inline timestamp-conversion block agrees with the precedence stated by the spec. -/
theorem resolveTimestampMs_eq_spec (env : IngestEnv) (msg : MQTTMessage) :
    resolveTimestampMs env msg
      = specResolvedTimestamp env.parseTimeStr env.now msg.timestampStr msg.timestamp := by
  unfold resolveTimestampMs specResolvedTimestamp
  by_cases h1 : msg.timestampStr ≠ ""
  · rw [if_pos h1, if_pos h1]
    cases env.parseTimeStr msg.timestampStr <;> rfl
  · rw [if_neg h1, if_neg h1]

/-- Claim C2: for a message passing validation, the timestamp written to
the storage sink and the timestamp broadcast in the realtime payload both
follow the precedence: non-empty textual timestamp parsed (falling back to
now on parse failure); else positive numeric timestamp with values below
`10^12` multiplied by 1000 and larger values unchanged; else now.  In
particular numeric 1700000000 resolves to 1700000000000 and numeric
1700000000000 resolves to itself. -/
theorem ingest_timestamp_resolution (env : IngestEnv) (s : SubscriberState)
    (msg : MQTTMessage)
    (hv : 0 < msg.voltage) (hc : 0 ≤ msg.current) (hp : 0 ≤ msg.power)
    (hws : s.wsBroadcasterSet = true) :
    savedTimestamps (handleEnergyMessage env s (some msg)).1
      = [specResolvedTimestamp env.parseTimeStr env.now msg.timestampStr msg.timestamp]
    ∧ realtimeTimestamps (handleEnergyMessage env s (some msg)).1
      = [specResolvedTimestamp env.parseTimeStr env.now msg.timestampStr msg.timestamp]
    ∧ specResolvedTimestamp env.parseTimeStr env.now "" 1700000000 = 1700000000000
    ∧ specResolvedTimestamp env.parseTimeStr env.now "" 1700000000000 = 1700000000000 := by
  rw [handleEnergyMessage_valid env s msg hv hc hp]
  rw [← resolveTimestampMs_eq_spec]
  refine ⟨?_, ?_, ?_, ?_⟩
  · cases hA : CheckThresholdAlert (defaultDeviceID msg.deviceID)
        ⟨resolveTimestampMs env msg, msg.voltage, msg.current, msg.power,
         msg.energy, msg.frequency, msg.powerFactor⟩ <;>
      simp [savedTimestamps, hA, hws]
  · cases hA : CheckThresholdAlert (defaultDeviceID msg.deviceID)
        ⟨resolveTimestampMs env msg, msg.voltage, msg.current, msg.power,
         msg.energy, msg.frequency, msg.powerFactor⟩ <;>
      simp [realtimeTimestamps, hA, hws]
  · norm_num [specResolvedTimestamp]
  · norm_num [specResolvedTimestamp]

/-- Witness for C2 at a concrete message carrying the numeric timestamp
1700000000 (seconds), resolved to 1700000000000 ms. -/
theorem ingest_timestamp_resolution_witness :
    savedTimestamps (handleEnergyMessage ⟨fun _ => none, 5, false⟩ ⟨[], true⟩
        (some ⟨"dev1", "", 1700000000, 230, 1, 230, 2, 50, 1⟩)).1
      = [specResolvedTimestamp (fun _ => none) 5 "" 1700000000]
    ∧ realtimeTimestamps (handleEnergyMessage ⟨fun _ => none, 5, false⟩ ⟨[], true⟩
        (some ⟨"dev1", "", 1700000000, 230, 1, 230, 2, 50, 1⟩)).1
      = [specResolvedTimestamp (fun _ => none) 5 "" 1700000000]
    ∧ specResolvedTimestamp (fun _ => none) 5 "" 1700000000 = 1700000000000
    ∧ specResolvedTimestamp (fun _ => none) 5 "" 1700000000000 = 1700000000000 :=
  ingest_timestamp_resolution ⟨fun _ => none, 5, false⟩ ⟨[], true⟩
    ⟨"dev1", "", 1700000000, 230, 1, 230, 2, 50, 1⟩
    (by norm_num) (by norm_num) (by norm_num) rfl

/-- The timestamp conversion reads only the parse outcome and the clock,
never the storage outcome. -/
theorem resolveTimestampMs_saveErr (parse : String → Option Int) (now : Int)
    (b1 b2 : Bool) (msg : MQTTMessage) :
    resolveTimestampMs ⟨parse, now, b1⟩ msg = resolveTimestampMs ⟨parse, now, b2⟩ msg := rfl

/-- Claim C7: a storage-sink failure (`SaveEnergyData` returning an error)
does not abort the pipeline — the liveness touch, the threshold
evaluation with its alert broadcast, and the realtime broadcast are
exactly those of a run in which persistence succeeds, and the resulting
subscriber state is identical. -/
theorem ingest_storage_failure_not_aborting
    (parse : String → Option Int) (now : Int) (s : SubscriberState) (msg : MQTTMessage)
    (hv : 0 < msg.voltage) (hc : 0 ≤ msg.current) (hp : 0 ≤ msg.power)
    (hws : s.wsBroadcasterSet = true) :
    nonSaveEffects (handleEnergyMessage ⟨parse, now, true⟩ s (some msg)).1
      = nonSaveEffects (handleEnergyMessage ⟨parse, now, false⟩ s (some msg)).1
    ∧ (handleEnergyMessage ⟨parse, now, true⟩ s (some msg)).2
      = (handleEnergyMessage ⟨parse, now, false⟩ s (some msg)).2
    ∧ Effect.touch (defaultDeviceID msg.deviceID) "online"
        ∈ (handleEnergyMessage ⟨parse, now, true⟩ s (some msg)).1
    ∧ realtimeCount (handleEnergyMessage ⟨parse, now, true⟩ s (some msg)).1 = 1 := by
  rw [handleEnergyMessage_valid ⟨parse, now, true⟩ s msg hv hc hp,
    handleEnergyMessage_valid ⟨parse, now, false⟩ s msg hv hc hp,
    resolveTimestampMs_saveErr parse now false true msg]
  refine ⟨?_, rfl, ?_, ?_⟩
  · cases hA : CheckThresholdAlert (defaultDeviceID msg.deviceID)
        ⟨resolveTimestampMs ⟨parse, now, true⟩ msg, msg.voltage, msg.current,
         msg.power, msg.energy, msg.frequency, msg.powerFactor⟩ <;>
      simp [nonSaveEffects, hA]
  · simp
  · cases hA : CheckThresholdAlert (defaultDeviceID msg.deviceID)
        ⟨resolveTimestampMs ⟨parse, now, true⟩ msg, msg.voltage, msg.current,
         msg.power, msg.energy, msg.frequency, msg.powerFactor⟩ <;>
      simp [realtimeCount, hA, hws]

/-- Witness for C7 at a concrete valid message. -/
theorem ingest_storage_failure_not_aborting_witness :
    nonSaveEffects (handleEnergyMessage ⟨fun _ => none, 5, true⟩ ⟨[], true⟩
        (some ⟨"dev1", "", 1700000000, 230, 1, 230, 2, 50, 1⟩)).1
      = nonSaveEffects (handleEnergyMessage ⟨fun _ => none, 5, false⟩ ⟨[], true⟩
        (some ⟨"dev1", "", 1700000000, 230, 1, 230, 2, 50, 1⟩)).1
    ∧ (handleEnergyMessage ⟨fun _ => none, 5, true⟩ ⟨[], true⟩
        (some ⟨"dev1", "", 1700000000, 230, 1, 230, 2, 50, 1⟩)).2
      = (handleEnergyMessage ⟨fun _ => none, 5, false⟩ ⟨[], true⟩
        (some ⟨"dev1", "", 1700000000, 230, 1, 230, 2, 50, 1⟩)).2
    ∧ Effect.touch (defaultDeviceID "dev1") "online"
        ∈ (handleEnergyMessage ⟨fun _ => none, 5, true⟩ ⟨[], true⟩
            (some ⟨"dev1", "", 1700000000, 230, 1, 230, 2, 50, 1⟩)).1
    ∧ realtimeCount (handleEnergyMessage ⟨fun _ => none, 5, true⟩ ⟨[], true⟩
        (some ⟨"dev1", "", 1700000000, 230, 1, 230, 2, 50, 1⟩)).1 = 1 :=
  ingest_storage_failure_not_aborting (fun _ => none) 5 ⟨[], true⟩
    ⟨"dev1", "", 1700000000, 230, 1, 230, 2, 50, 1⟩
    (by norm_num) (by norm_num) (by norm_num) rfl

/-- Distinct keys are preserved by every runtime mutation sequence of the
liveness map. -/
theorem mapKeys_nodup_applyOps (ops : List TrackerOp) (m : DeviceMap)
    (h : (mapKeys m).Nodup) : (mapKeys (ops.foldl applyTrackerOp m)).Nodup := by
  induction ops generalizing m with
  | nil => simpa using h
  | cons op rest ih =>
    rw [List.foldl_cons]
    apply ih
    cases op with
    | ingestTouch id now =>
      exact mapKeys_nodup_setEntry m id _ h
    | sweep now =>
      rw [applyTrackerOp, mapKeys_checkTick]
      exact h

/-- Claim C9: submitting the identical valid reading twice yields two
liveness touches and two realtime broadcasts, yet the liveness map still
holds exactly one record for the device identifier; and over every
sequence of runtime mutations starting from the empty map, no identifier
ever has more than one entry. -/
theorem duplicate_delivery_single_record
    (env : IngestEnv) (s : SubscriberState) (msg : MQTTMessage)
    (hv : 0 < msg.voltage) (hc : 0 ≤ msg.current) (hp : 0 ≤ msg.power)
    (hws : s.wsBroadcasterSet = true)
    (hnd : (mapKeys s.deviceStatus).Nodup) :
    touchCount ((handleEnergyMessage env s (some msg)).1
        ++ (handleEnergyMessage env (handleEnergyMessage env s (some msg)).2
              (some msg)).1) = 2
    ∧ realtimeCount ((handleEnergyMessage env s (some msg)).1
        ++ (handleEnergyMessage env (handleEnergyMessage env s (some msg)).2
              (some msg)).1) = 2
    ∧ (mapKeys (handleEnergyMessage env (handleEnergyMessage env s (some msg)).2
          (some msg)).2.deviceStatus).Nodup
    ∧ (mapKeys (handleEnergyMessage env (handleEnergyMessage env s (some msg)).2
          (some msg)).2.deviceStatus).count (defaultDeviceID msg.deviceID) = 1
    ∧ ∀ ops : List TrackerOp, ∀ id : String,
        (mapKeys (ops.foldl applyTrackerOp ([] : DeviceMap))).count id ≤ 1 := by
  have hrun1 := handleEnergyMessage_valid env s msg hv hc hp
  have hrun2 := handleEnergyMessage_valid env
    ⟨updateDeviceStatus s.deviceStatus (defaultDeviceID msg.deviceID) "online" env.now,
     s.wsBroadcasterSet⟩ msg hv hc hp
  have hs1 : (handleEnergyMessage env s (some msg)).2
      = ⟨updateDeviceStatus s.deviceStatus (defaultDeviceID msg.deviceID) "online" env.now,
         s.wsBroadcasterSet⟩ := by
    rw [hrun1]
  rw [hs1, hrun1, hrun2]
  have hnd2 : (mapKeys (updateDeviceStatus
      (updateDeviceStatus s.deviceStatus (defaultDeviceID msg.deviceID) "online" env.now)
      (defaultDeviceID msg.deviceID) "online" env.now)).Nodup :=
    mapKeys_nodup_setEntry _ _ _ (mapKeys_nodup_setEntry _ _ _ hnd)
  refine ⟨?_, ?_, hnd2, ?_, ?_⟩
  · cases hA : CheckThresholdAlert (defaultDeviceID msg.deviceID)
        ⟨resolveTimestampMs env msg, msg.voltage, msg.current, msg.power,
         msg.energy, msg.frequency, msg.powerFactor⟩ <;>
      simp [touchCount, hA, hws, List.filter_append]
  · cases hA : CheckThresholdAlert (defaultDeviceID msg.deviceID)
        ⟨resolveTimestampMs env msg, msg.voltage, msg.current, msg.power,
         msg.energy, msg.frequency, msg.powerFactor⟩ <;>
      simp [realtimeCount, hA, hws, List.filter_append]
  · exact List.count_eq_one_of_mem hnd2 (mem_mapKeys_setEntry _ _ _)
  · intro ops id
    exact List.nodup_iff_count_le_one.mp
      (mapKeys_nodup_applyOps ops [] (by simp [mapKeys])) id

/-- Witness for C9 at a concrete valid message submitted twice. -/
theorem duplicate_delivery_single_record_witness :
    touchCount ((handleEnergyMessage ⟨fun _ => none, 5, false⟩ ⟨[], true⟩
        (some ⟨"dev1", "", 1700000000, 230, 1, 230, 2, 50, 1⟩)).1
      ++ (handleEnergyMessage ⟨fun _ => none, 5, false⟩
            (handleEnergyMessage ⟨fun _ => none, 5, false⟩ ⟨[], true⟩
              (some ⟨"dev1", "", 1700000000, 230, 1, 230, 2, 50, 1⟩)).2
            (some ⟨"dev1", "", 1700000000, 230, 1, 230, 2, 50, 1⟩)).1) = 2
    ∧ realtimeCount ((handleEnergyMessage ⟨fun _ => none, 5, false⟩ ⟨[], true⟩
        (some ⟨"dev1", "", 1700000000, 230, 1, 230, 2, 50, 1⟩)).1
      ++ (handleEnergyMessage ⟨fun _ => none, 5, false⟩
            (handleEnergyMessage ⟨fun _ => none, 5, false⟩ ⟨[], true⟩
              (some ⟨"dev1", "", 1700000000, 230, 1, 230, 2, 50, 1⟩)).2
            (some ⟨"dev1", "", 1700000000, 230, 1, 230, 2, 50, 1⟩)).1) = 2
    ∧ (mapKeys (handleEnergyMessage ⟨fun _ => none, 5, false⟩
          (handleEnergyMessage ⟨fun _ => none, 5, false⟩ ⟨[], true⟩
            (some ⟨"dev1", "", 1700000000, 230, 1, 230, 2, 50, 1⟩)).2
          (some ⟨"dev1", "", 1700000000, 230, 1, 230, 2, 50, 1⟩)).2.deviceStatus).count
        (defaultDeviceID "dev1") = 1 :=
  ⟨(duplicate_delivery_single_record ⟨fun _ => none, 5, false⟩ ⟨[], true⟩
      ⟨"dev1", "", 1700000000, 230, 1, 230, 2, 50, 1⟩
      (by norm_num) (by norm_num) (by norm_num) rfl List.nodup_nil).1,
   (duplicate_delivery_single_record ⟨fun _ => none, 5, false⟩ ⟨[], true⟩
      ⟨"dev1", "", 1700000000, 230, 1, 230, 2, 50, 1⟩
      (by norm_num) (by norm_num) (by norm_num) rfl List.nodup_nil).2.1,
   (duplicate_delivery_single_record ⟨fun _ => none, 5, false⟩ ⟨[], true⟩
      ⟨"dev1", "", 1700000000, 230, 1, 230, 2, 50, 1⟩
      (by norm_num) (by norm_num) (by norm_num) rfl List.nodup_nil).2.2.2.1⟩

end WattWise
